import Mathlib

/-!
Shallow embedding of the command-routing core of AntDB's
`src/backend/tcop/utility.c` (ADB build), covering the remote dispatcher
(`ExecRemoteUtilityStmt`), the node-target resolver (`ExecUtilityFindNodes`,
`ExecUtilityFindNodesRelkind`), the drop consistency checker
(`DropStmtPreTreatment`, `ExecDropStmt`), the transaction statement handler
(the `T_TransactionStmt` arm of `standard_ProcessUtility`), and the slow-path
orchestrator (`ProcessUtilitySlow`, with its `T_CreateStmt` and
`T_AlterTableStmt` branches).

External collaborators (catalog lookups, the transaction manager, the event
trigger subsystem, the transport) are modelled as explicit inputs; machine
state that the code reads (coordinator role, number of data nodes) is carried
in a `ClusterConfig` record.
-/

set_option autoImplicit false

/-- Catalog object identifier; `0` is `InvalidOid`. -/
abbrev Oid := Nat

/-- `OidIsValid` from the source: an oid is valid iff it is not `InvalidOid`. -/
def OidIsValid (o : Oid) : Bool := o != 0

/-- `RemoteQueryExecType`: the placement target of a remote dispatch. -/
inductive RemoteQueryExecType where
  | EXEC_ON_ALL_NODES
  | EXEC_ON_COORDS
  | EXEC_ON_DATANODES
  | EXEC_ON_NONE
deriving DecidableEq, Repr

export RemoteQueryExecType (EXEC_ON_ALL_NODES EXEC_ON_COORDS EXEC_ON_DATANODES EXEC_ON_NONE)

/-- Object kinds that appear in the routing rules of `ExecUtilityFindNodes`
and `DropStmtPreTreatment`; `OBJECT_OTHER` stands for every other kind,
which both functions treat through their `default` arm. -/
inductive ObjectType where
  | OBJECT_TABLE
  | OBJECT_SEQUENCE
  | OBJECT_VIEW
  | OBJECT_INDEX
  | OBJECT_MATVIEW
  | OBJECT_RULE
  | OBJECT_TRIGGER
  | OBJECT_FOREIGN_TABLE
  | OBJECT_OTHER
deriving DecidableEq, Repr

/-- Relation kind tags (`relkind`), as the characters used in the source. -/
def RELKIND_RELATION : Char := 'r'

/-- `relkind` of a sequence. -/
def RELKIND_SEQUENCE : Char := 'S'

/-- `relkind` of a plain view. -/
def RELKIND_VIEW : Char := 'v'

/-- `relkind` of a materialized view. -/
def RELKIND_MATVIEW : Char := 'm'

/-- `relkind` of an index. -/
def RELKIND_INDEX : Char := 'i'

/-- Read-only catalog collaborators used by the node-target resolver:
`IsTempTable`, `get_rel_relkind` and `IndexGetRelation`.  They live outside
`utility.c`; the resolver only consumes their answers, so they are
parameters of the embedding. -/
structure Catalog where
  IsTempTable : Oid → Bool
  get_rel_relkind : Oid → Char
  IndexGetRelation : Oid → Oid

/-- Ambient cluster state read by the dispatcher: `IsCoordMaster()` and the
`NumDataNodes` counter. -/
structure ClusterConfig where
  isCoordMaster : Bool
  NumDataNodes : Nat
deriving DecidableEq, Repr

/-- `RemoteUtilityContext` from the source (the parse-tree pointer and the
`ExecNodes` list are kept only as the serialized statement text, which is all
the dispatcher forwards for the statements modelled here). -/
structure RemoteUtilityContext where
  sentToRemote : Bool
  force_autocommit : Bool
  is_temp : Bool
  exec_type : RemoteQueryExecType
  query : String
deriving DecidableEq, Repr

/-- Classified errors raised by the routing core (`ereport(ERROR, ...)`
sites relevant to the modelled paths). -/
inductive UtilityError where
  /-- `"No Datanode defined in cluster"` (`ERRCODE_UNDEFINED_OBJECT`). -/
  | NoDataNodesConfigured
  /-- `"DROP not supported for TEMP and non-TEMP objects"`
  (`ERRCODE_FEATURE_NOT_SUPPORTED`). -/
  | MixedPlacementError
  /-- `DropTableThrowErrorExternal`: named object does not exist and the
  statement does not tolerate missing objects. -/
  | UndefinedObject
  /-- `"CREATE not supported for TEMP and non-TEMP objects"`
  (`ERRCODE_FEATURE_NOT_SUPPORTED`). -/
  | MixedCreateTempError
  /-- `"temporary table not support distribute by"` (`ERRCODE_SYNTAX_ERROR`). -/
  | TempTableDistributeBy
  /-- `"SAVEPOINT is not yet supported."` (`ERRCODE_STATEMENT_TOO_COMPLEX`). -/
  | SavepointNotSupported
  /-- `RequireTransactionChain` failure (`NoActiveTransactionBlock`). -/
  | NoActiveTransactionBlock
  /-- `PreventCommandDuringRecovery` failure. -/
  | RecoveryModeViolation
  /-- `PreventTransactionChain` failure. -/
  | TransactionChainViolation
  /-- `"PGXC does not support concurrent INDEX yet"`. -/
  | ConcurrentIndexNotSupported
deriving DecidableEq, Repr

/-- The `RemoteQuery` step built by `ExecRemoteUtilityStmt` and handed to
`ExecInterXactUtility` (the transport). -/
structure RemoteQueryStep where
  sql_statement : String
  force_autocommit : Bool
  exec_type : RemoteQueryExecType
  is_temp : Bool
deriving DecidableEq, Repr

/-- Outcome of one call to the remote dispatcher: return without network
I/O, raise an error, or hand one broadcast to the transport. -/
inductive DispatchResult where
  | noop
  | err (e : UtilityError)
  | broadcast (step : RemoteQueryStep)
deriving DecidableEq, Repr

/-- Number of network broadcasts a dispatch outcome performs. -/
def broadcastCount : DispatchResult → Nat
  | .broadcast _ => 1
  | _ => 0

/-- `ExecRemoteUtilityStmt`: the remote dispatcher.  Mirrors the guard
sequence of the source: not the master coordinator, `EXEC_ON_NONE`,
`sentToRemote`, then the zero-data-node error, and otherwise builds the
`RemoteQuery` step and submits it. -/
def ExecRemoteUtilityStmt (cfg : ClusterConfig) (context : RemoteUtilityContext) :
    DispatchResult :=
  if !cfg.isCoordMaster then .noop
  else if context.exec_type = EXEC_ON_NONE then .noop
  else if context.sentToRemote then .noop
  else if cfg.NumDataNodes = 0 then .err .NoDataNodesConfigured
  else .broadcast {
    sql_statement := context.query
    force_autocommit := context.force_autocommit
    exec_type := context.exec_type
    is_temp := context.is_temp }

/-- `ExecUtilityFindNodesRelkind`: placement and temp-ness of a relation from
its `relkind`. -/
def ExecUtilityFindNodesRelkind (cat : Catalog) (relid : Oid) :
    RemoteQueryExecType × Bool :=
  let relkind_str := cat.get_rel_relkind relid
  if relkind_str = RELKIND_SEQUENCE then
    (EXEC_ON_ALL_NODES, cat.IsTempTable relid)
  else if relkind_str = RELKIND_RELATION then
    (EXEC_ON_ALL_NODES, cat.IsTempTable relid)
  else if relkind_str = RELKIND_VIEW then
    (if cat.IsTempTable relid then EXEC_ON_NONE else EXEC_ON_COORDS,
     cat.IsTempTable relid)
  else
    (EXEC_ON_ALL_NODES, false)

/-- `ExecUtilityFindNodes`: the node-target resolver.  Returns the pair
`(exec_type, is_temp)` the C function produces through its result and its
out-parameter. -/
def ExecUtilityFindNodes (cat : Catalog) (object_type : ObjectType) (object_id : Oid) :
    RemoteQueryExecType × Bool :=
  match object_type with
  | .OBJECT_SEQUENCE =>
      (EXEC_ON_ALL_NODES, cat.IsTempTable object_id)
  | .OBJECT_TABLE | .OBJECT_TRIGGER =>
      ExecUtilityFindNodesRelkind cat object_id
  | .OBJECT_RULE | .OBJECT_VIEW =>
      if cat.IsTempTable object_id then (EXEC_ON_NONE, true)
      else (EXEC_ON_COORDS, false)
  | .OBJECT_INDEX =>
      if cat.IsTempTable object_id then (EXEC_ON_DATANODES, true)
      else if cat.get_rel_relkind object_id = RELKIND_MATVIEW ∨
              (cat.get_rel_relkind object_id = RELKIND_INDEX ∧
               cat.get_rel_relkind (cat.IndexGetRelation object_id) = RELKIND_MATVIEW) then
        (EXEC_ON_COORDS, false)
      else
        (EXEC_ON_ALL_NODES, false)
  | .OBJECT_MATVIEW =>
      (EXEC_ON_COORDS, false)
  | _ =>
      (EXEC_ON_ALL_NODES, false)

/-- A `DropStmt` after name resolution: `objects` holds, in statement order,
the oid `RangeVarGetRelid(rel, NoLock, true)` returns for each named object
(`0` when the name does not resolve), together with the statement's
`removeType`, `missing_ok` (`IF EXISTS`) and `concurrent` flags. -/
structure DropStmt where
  removeType : ObjectType
  objects : List Oid
  missing_ok : Bool
  concurrent : Bool
deriving DecidableEq, Repr

/-- The object-scanning loop of `DropStmtPreTreatment` for the
`OBJECT_TABLE | OBJECT_SEQUENCE | OBJECT_VIEW | OBJECT_INDEX` arm.  State is
`(is_first, res_exec_type, res_is_temp)` exactly as in the source; invalid
oids raise `UndefinedObject` unless `missing_ok`, in which case they are
skipped; the first resolving object fixes the decision and every later one
is compared against it. -/
def dropObjectsCheck (cat : Catalog) (removeType : ObjectType) (missing_ok : Bool) :
    List Oid → Bool → RemoteQueryExecType → Bool →
    Except UtilityError (RemoteQueryExecType × Bool)
  | [], _, res_exec_type, res_is_temp =>
      .ok (res_exec_type, res_is_temp)
  | relid :: rest, is_first, res_exec_type, res_is_temp =>
      if !OidIsValid relid && !missing_ok then
        .error .UndefinedObject
      else if !OidIsValid relid && missing_ok then
        dropObjectsCheck cat removeType missing_ok rest is_first res_exec_type res_is_temp
      else if is_first then
        let r := ExecUtilityFindNodes cat removeType relid
        dropObjectsCheck cat removeType missing_ok rest false r.1 r.2
      else
        let r := ExecUtilityFindNodes cat removeType relid
        if r.1 ≠ res_exec_type ∨ r.2 ≠ res_is_temp then
          .error .MixedPlacementError
        else
          dropObjectsCheck cat removeType missing_ok rest false res_exec_type res_is_temp

/-- `DropStmtPreTreatment`: pre-treatment of a DROP on the local coordinator.
Takes the caller's `(exec_type, is_temp)` pair (the function's in/out
parameters) and returns the updated pair, or the error the scan raises.
On a node that is not the master coordinator it returns the inputs
unchanged.  The scan state starts at `(EXEC_ON_ALL_NODES, false)` as in the
source's local variables `res_exec_type` / `res_is_temp`. -/
def DropStmtPreTreatment (cfg : ClusterConfig) (cat : Catalog) (stmt : DropStmt)
    (exec_type : RemoteQueryExecType) (is_temp : Bool) :
    Except UtilityError (RemoteQueryExecType × Bool) :=
  if !cfg.isCoordMaster then .ok (exec_type, is_temp)
  else
    match stmt.removeType with
    | .OBJECT_TABLE | .OBJECT_SEQUENCE | .OBJECT_VIEW | .OBJECT_INDEX =>
        dropObjectsCheck cat stmt.removeType stmt.missing_ok stmt.objects
          true EXEC_ON_ALL_NODES false
    | .OBJECT_RULE | .OBJECT_TRIGGER =>
        match stmt.objects with
        | relid :: _ =>
            if !OidIsValid relid && !stmt.missing_ok then
              .error .UndefinedObject
            else if OidIsValid relid then
              .ok (ExecUtilityFindNodes cat stmt.removeType relid)
            else
              .ok (EXEC_ON_NONE, false)
        | [] => .ok (EXEC_ON_NONE, false)
    | _ => .ok (exec_type, false)

/-- Observable outcome of `ExecDropStmt`: which named objects the local
catalog-mutation collaborator removed, the remote dispatch performed (if
any), and the error raised before any removal (if any). -/
structure DropOutcome where
  dropped : List Oid
  dispatch : DispatchResult
  preErr : Option UtilityError
deriving DecidableEq, Repr

/-- Modelled from the spec: `RemoveRelations` / `RemoveObjects` are external
catalog-mutation collaborators; they drop every named object that exists
(the valid oids of the statement). -/
def RemoveRelations (stmt : DropStmt) : List Oid :=
  stmt.objects.filter (fun o => OidIsValid o)

/-- `ExecDropStmt`: runs `DropStmtPreTreatment`, then the local removal, then
(for non-temporary decisions) the remote dispatch through
`ExecRemoteUtilityStmt`.  The initial placement is `EXEC_ON_COORDS` for
`OBJECT_MATVIEW` and `EXEC_ON_ALL_NODES` otherwise, as in the source; a
concurrent index drop is rejected up front in the ADB build. -/
def ExecDropStmt (cfg : ClusterConfig) (cat : Catalog) (stmt : DropStmt)
    (queryString : String) (sentToRemote : Bool) : DropOutcome :=
  if stmt.removeType = .OBJECT_INDEX && stmt.concurrent then
    { dropped := [], dispatch := .noop, preErr := some .ConcurrentIndexNotSupported }
  else
    let exec_type0 :=
      if stmt.removeType = .OBJECT_MATVIEW then EXEC_ON_COORDS else EXEC_ON_ALL_NODES
    match DropStmtPreTreatment cfg cat stmt exec_type0 false with
    | .error e =>
        { dropped := [], dispatch := .noop, preErr := some e }
    | .ok (exec_type, is_temp) =>
        let dropped := RemoveRelations stmt
        if !is_temp then
          { dropped := dropped
            dispatch := ExecRemoteUtilityStmt cfg {
              sentToRemote := sentToRemote
              force_autocommit := false
              is_temp := is_temp
              exec_type := exec_type
              query := queryString }
            preErr := none }
        else
          { dropped := dropped, dispatch := .noop, preErr := none }

/-- `TransactionStmtKind` values handled by the `T_TransactionStmt` arm of
`standard_ProcessUtility`. -/
inductive TransactionStmtKind where
  | TRANS_STMT_BEGIN
  | TRANS_STMT_START
  | TRANS_STMT_COMMIT
  | TRANS_STMT_PREPARE
  | TRANS_STMT_COMMIT_PREPARED
  | TRANS_STMT_ROLLBACK_PREPARED
  | TRANS_STMT_ROLLBACK
  | TRANS_STMT_SAVEPOINT
  | TRANS_STMT_RELEASE
  | TRANS_STMT_ROLLBACK_TO
deriving DecidableEq, Repr

/-- Answers of the external transaction-manager collaborator and ambient
session flags consulted by the transaction handler: the boolean results of
`EndTransactionBlock` / `PrepareTransactionBlock`, `RecoveryInProgress()`,
and `IsTransactionBlock()` (consulted by `RequireTransactionChain` /
`PreventTransactionChain`, which live outside this file's source). -/
structure XactCollab where
  EndTransactionBlock : Bool
  PrepareTransactionBlock : Bool
  RecoveryInProgress : Bool
  IsTransactionBlock : Bool
deriving DecidableEq, Repr

/-- Observable outcome of the transaction-statement arm: the completion-tag
buffer contents (`none` when the caller passed no buffer), the error raised
(if any), and whether `DefineSavepoint` was invoked on the collaborator. -/
structure TransOutcome where
  completionTag : Option String
  err : Option UtilityError
  defineSavepointCalled : Bool
deriving DecidableEq, Repr

/-- `PreventCommandDuringRecovery` from this source file: raises a
recovery-mode violation (`ERRCODE_READ_ONLY_SQL_TRANSACTION`,
`"cannot execute %s during recovery"`) when `RecoveryInProgress()` holds;
the ambient recovery flag is read from the collaborator record. -/
def PreventCommandDuringRecovery (collab : XactCollab) : Except UtilityError Unit :=
  if collab.RecoveryInProgress then .error .RecoveryModeViolation else .ok ()

/-- Modelled from the spec: `RequireTransactionChain` (external) raises
`NoActiveTransactionBlock` when the statement runs top-level outside a
transaction block. -/
def RequireTransactionChain (collab : XactCollab) (isTopLevel : Bool) :
    Except UtilityError Unit :=
  if isTopLevel && !collab.IsTransactionBlock then .error .NoActiveTransactionBlock
  else .ok ()

/-- Modelled from the spec: `PreventTransactionChain` (external) forbids the
statement inside an existing transaction block. -/
def PreventTransactionChain (collab : XactCollab) (isTopLevel : Bool) :
    Except UtilityError Unit :=
  if isTopLevel && collab.IsTransactionBlock then .error .TransactionChainViolation
  else .ok ()

/-- The `T_TransactionStmt` arm of `standard_ProcessUtility` in the ADB
build.  `hasCompletionTag` states whether the caller supplied a tag buffer;
`standard_ProcessUtility` clears the buffer before the switch, so an
untouched buffer reads as the empty string. -/
def ProcessTransactionStmt (collab : XactCollab) (kind : TransactionStmtKind)
    (isTopLevel : Bool) (hasCompletionTag : Bool) : TransOutcome :=
  let tag0 : Option String := if hasCompletionTag then some "" else none
  match kind with
  | .TRANS_STMT_BEGIN | .TRANS_STMT_START =>
      { completionTag := tag0, err := none, defineSavepointCalled := false }
  | .TRANS_STMT_COMMIT =>
      if !collab.EndTransactionBlock then
        { completionTag := if hasCompletionTag then some "ROLLBACK" else none
          err := none, defineSavepointCalled := false }
      else
        { completionTag := tag0, err := none, defineSavepointCalled := false }
  | .TRANS_STMT_PREPARE =>
      match PreventCommandDuringRecovery collab with
      | .error e => { completionTag := tag0, err := some e, defineSavepointCalled := false }
      | .ok _ =>
          if !collab.PrepareTransactionBlock then
            { completionTag := if hasCompletionTag then some "ROLLBACK" else none
              err := none, defineSavepointCalled := false }
          else
            { completionTag := tag0, err := none, defineSavepointCalled := false }
  | .TRANS_STMT_COMMIT_PREPARED | .TRANS_STMT_ROLLBACK_PREPARED =>
      match PreventTransactionChain collab isTopLevel with
      | .error e => { completionTag := tag0, err := some e, defineSavepointCalled := false }
      | .ok _ =>
          match PreventCommandDuringRecovery collab with
          | .error e => { completionTag := tag0, err := some e, defineSavepointCalled := false }
          | .ok _ => { completionTag := tag0, err := none, defineSavepointCalled := false }
  | .TRANS_STMT_ROLLBACK =>
      { completionTag := tag0, err := none, defineSavepointCalled := false }
  | .TRANS_STMT_SAVEPOINT =>
      { completionTag := tag0, err := some .SavepointNotSupported
        defineSavepointCalled := false }
  | .TRANS_STMT_RELEASE | .TRANS_STMT_ROLLBACK_TO =>
      match RequireTransactionChain collab isTopLevel with
      | .error e => { completionTag := tag0, err := some e, defineSavepointCalled := false }
      | .ok _ => { completionTag := tag0, err := none, defineSavepointCalled := false }

/-- `ProcessUtilityContext`, ordered as in the source header:
`PROCESS_UTILITY_TOPLEVEL < PROCESS_UTILITY_QUERY < PROCESS_UTILITY_SUBCOMMAND`. -/
inductive ProcessUtilityContext where
  | PROCESS_UTILITY_TOPLEVEL
  | PROCESS_UTILITY_QUERY
  | PROCESS_UTILITY_SUBCOMMAND
deriving DecidableEq, Repr

/-- Numeric value of the context enum, for the source's
`context <= PROCESS_UTILITY_QUERY` comparison. -/
def ProcessUtilityContext.toNat : ProcessUtilityContext → Nat
  | .PROCESS_UTILITY_TOPLEVEL => 0
  | .PROCESS_UTILITY_QUERY => 1
  | .PROCESS_UTILITY_SUBCOMMAND => 2

/-- `isCompleteQuery = (context <= PROCESS_UTILITY_QUERY)` from
`ProcessUtilitySlow`. -/
def isCompleteQuery (c : ProcessUtilityContext) : Bool :=
  c.toNat ≤ 1

/-- Sub-statements appearing in the parse-analysis expansions run by the
`T_CreateStmt` and `T_AlterTableStmt` branches of `ProcessUtilitySlow`.
`CreateStmt` carries `relation->relpersistence == RELPERSISTENCE_TEMP` and
whether a `distributeby` clause is present; `RemoteQuery` is the node
injected by `AddRemoteParseTree`; `IndexStmt` stands for any other generated
sub-statement, which the branches execute through the recursive
`ProcessUtility` call. -/
inductive UtilityStmt where
  | CreateStmt (relpersistence_temp : Bool) (has_distributeby : Bool)
  | CreateForeignTableStmt
  | AlterTableStmt
  | RemoteQuery (exec_type : RemoteQueryExecType) (is_temp : Bool)
  | IndexStmt
deriving DecidableEq, Repr

/-- Observable events of the slow path: change-notification calls, command
counter increments, handler work, and recursive `ProcessUtility`
invocations (recording the context and `sentToRemote` flag passed). -/
inductive Event where
  | beginBatch
  | endBatch
  | ddlCommandStart
  | ddlCommandEnd
  | sqlDrop
  | collectSimpleCommand
  | cci
  | defineRelation
  | createToastTable
  | createForeignTable
  | alterTable
  | recurse (ctx : ProcessUtilityContext) (sentToRemote : Bool)
deriving DecidableEq, Repr

/-- Trace and error of a per-kind handler (the body of the big switch in
`ProcessUtilitySlow`). -/
structure HandlerResult where
  trace : List Event
  err : Option UtilityError
deriving DecidableEq, Repr

/-- The bracketing skeleton of `ProcessUtilitySlow`:
`needCleanup = isCompleteQuery && EventTriggerBeginCompleteQuery()`
(`beginOk` is the collaborator's answer), the `PG_TRY` body running
`EventTriggerDDLCommandStart`, the handler, and on success
`EventTriggerSQLDrop` / `EventTriggerDDLCommandEnd`; on both the success
path and the `PG_CATCH` re-raise path, `EventTriggerEndCompleteQuery` runs
exactly once when `needCleanup` holds. -/
def ProcessUtilitySlowSkeleton (context : ProcessUtilityContext) (beginOk : Bool)
    (handler : HandlerResult) : HandlerResult :=
  let needCleanup := isCompleteQuery context && beginOk
  let pre := (if needCleanup then [Event.beginBatch] else []) ++
             (if isCompleteQuery context then [Event.ddlCommandStart] else [])
  match handler.err with
  | some e =>
      { trace := pre ++ handler.trace ++ (if needCleanup then [Event.endBatch] else [])
        err := some e }
  | none =>
      { trace := pre ++ handler.trace ++
                 (if isCompleteQuery context then [Event.sqlDrop, Event.ddlCommandEnd] else []) ++
                 (if needCleanup then [Event.endBatch] else [])
        err := none }

/-- Modelled from the spec: `AddRemoteParseTree` (defined outside this
file's source) injects a `RemoteQuery` sub-statement carrying the resolved
placement into the expansion list, placed before the local sub-statements
so the remote copy originates from the same parse tree. -/
def AddRemoteParseTree (stmts : List UtilityStmt) (exec_type : RemoteQueryExecType)
    (is_temp : Bool) : List UtilityStmt :=
  UtilityStmt.RemoteQuery exec_type is_temp :: stmts

/-- The temp/non-temp consistency pre-scan of the `T_CreateStmt` branch
(run only when `IsCoordMaster()`).  State is `(is_first, is_temp)`; a
temporary `CreateStmt` with a `distributeby` clause is rejected; a later
object whose temp-ness differs from the first raises the mixed-create
error; the foreign-table arm raises it, as implemented, when `is_temp` is
false. -/
def createStmtsMixedCheck : List UtilityStmt → Bool → Bool → Except UtilityError Bool
  | [], _, is_temp => .ok is_temp
  | s :: rest, is_first, is_temp =>
      match s with
      | .CreateStmt is_object_temp has_distributeby =>
          if is_object_temp && has_distributeby then
            .error .TempTableDistributeBy
          else if is_first then
            createStmtsMixedCheck rest false (is_temp || is_object_temp)
          else if is_object_temp ≠ is_temp then
            .error .MixedCreateTempError
          else
            createStmtsMixedCheck rest false is_temp
      | .CreateForeignTableStmt =>
          if is_first then
            createStmtsMixedCheck rest false is_temp
          else if !is_temp then
            .error .MixedCreateTempError
          else
            createStmtsMixedCheck rest false is_temp
      | _ => createStmtsMixedCheck rest is_first is_temp

/-- Per-sub-statement work of the `T_CreateStmt` branch loop: a `CreateStmt`
runs `DefineRelation`, collects the command, advances the command counter
and creates the toast table; a `CreateForeignTableStmt` runs
`DefineRelation` and `CreateForeignTable`; anything else recurses into
`ProcessUtility` with `PROCESS_UTILITY_SUBCOMMAND` and `sentToRemote`
hard-coded to `true`. -/
def createStmtSubTrace : UtilityStmt → List Event
  | .CreateStmt _ _ =>
      [Event.defineRelation, Event.collectSimpleCommand, Event.cci,
       Event.createToastTable]
  | .CreateForeignTableStmt =>
      [Event.defineRelation, Event.createForeignTable, Event.collectSimpleCommand]
  | _ =>
      [Event.recurse .PROCESS_UTILITY_SUBCOMMAND true]

/-- The `foreach` loop shared by the `T_CreateStmt` and `T_AlterTableStmt`
branches: run each sub-statement's work, with a `CommandCounterIncrement`
between consecutive sub-statements (`if (lnext(l) != NULL)`). -/
def processStmtList (f : UtilityStmt → List Event) : List UtilityStmt → List Event
  | [] => []
  | [s] => f s
  | s :: s2 :: rest => f s ++ Event.cci :: processStmtList f (s2 :: rest)

/-- The sub-statement list the `T_CreateStmt` branch actually executes:
the parse-analysis expansion, with the `RemoteQuery` node injected when the
statement is neither already forwarded nor temporary (the mixed-check's
resulting `is_temp`, `false` off the master coordinator). -/
def createExecutedStmts (cfg : ClusterConfig) (sentToRemote : Bool)
    (expansion : List UtilityStmt) : List UtilityStmt :=
  match (if cfg.isCoordMaster then createStmtsMixedCheck expansion true false
         else Except.ok false) with
  | .error _ => []
  | .ok is_temp =>
      if !sentToRemote && !is_temp then
        AddRemoteParseTree expansion EXEC_ON_ALL_NODES is_temp
      else expansion

/-- The `T_CreateStmt` / `T_CreateForeignTableStmt` branch of
`ProcessUtilitySlow`, given the list `transformCreateStmt` produced. -/
def ProcessCreateStmtBranch (cfg : ClusterConfig) (sentToRemote : Bool)
    (expansion : List UtilityStmt) : HandlerResult :=
  match (if cfg.isCoordMaster then createStmtsMixedCheck expansion true false
         else Except.ok false) with
  | .error e => { trace := [], err := some e }
  | .ok _ =>
      { trace := processStmtList createStmtSubTrace
                   (createExecutedStmts cfg sentToRemote expansion)
        err := none }

/-- `AlterTableCmd` sub-command kinds distinguished by
`IsAlterTableStmtRedistribution`. -/
inductive AlterTableCmdType where
  | AT_SubCluster
  | AT_AddNodeList
  | AT_DeleteNodeList
  | AT_OtherSubCmd
deriving DecidableEq, Repr

/-- An `AlterTableStmt` after relation lookup: `relkind` is the statement's
object kind, `relid` the oid `AlterTableLookupRelation` /
`RangeVarGetRelid` resolve for `atstmt->relation` (`0` when missing), and
`cmds` its sub-command kinds. -/
structure AlterTableStmtRec where
  relkind : ObjectType
  relid : Oid
  cmds : List AlterTableCmdType
deriving DecidableEq, Repr

/-- `IsAlterTableStmtRedistribution`: true iff every sub-command is one of
`AT_SubCluster`, `AT_AddNodeList`, `AT_DeleteNodeList`. -/
def IsAlterTableStmtRedistribution (atstmt : AlterTableStmtRec) : Bool :=
  atstmt.cmds.all fun cmd =>
    match cmd with
    | .AT_SubCluster | .AT_AddNodeList | .AT_DeleteNodeList => true
    | .AT_OtherSubCmd => false

/-- Per-sub-statement work of the `T_AlterTableStmt` branch loop: an
`AlterTableStmt` runs `AlterTable`; anything else recurses into
`ProcessUtility` with `PROCESS_UTILITY_SUBCOMMAND` and `sentToRemote`
hard-coded to `true`. -/
def alterStmtSubTrace : UtilityStmt → List Event
  | .AlterTableStmt => [Event.alterTable]
  | _ => [Event.recurse .PROCESS_UTILITY_SUBCOMMAND true]

/-- The sub-statement list the `T_AlterTableStmt` branch actually executes:
when not already forwarded and the relation resolves, the placement is
computed once up front by `ExecUtilityFindNodes`, downgraded to
`EXEC_ON_COORDS` for a pure redistribution command on a table, and a
`RemoteQuery` node is injected unless the relation is temporary. -/
def alterExecutedStmts (cat : Catalog) (sentToRemote : Bool)
    (atstmt : AlterTableStmtRec) (expansion : List UtilityStmt) : List UtilityStmt :=
  if !sentToRemote then
    if OidIsValid atstmt.relid then
      let r := ExecUtilityFindNodes cat atstmt.relkind atstmt.relid
      if !r.2 then
        let exec_type :=
          if atstmt.relkind = .OBJECT_TABLE && IsAlterTableStmtRedistribution atstmt then
            EXEC_ON_COORDS
          else r.1
        AddRemoteParseTree expansion exec_type r.2
      else expansion
    else expansion
  else expansion

/-- The `T_AlterTableStmt` branch of `ProcessUtilitySlow`, given the list
`transformAlterTableStmt` produced; when the relation does not resolve the
branch only reports "skipping". -/
def ProcessAlterTableBranch (cat : Catalog) (sentToRemote : Bool)
    (atstmt : AlterTableStmtRec) (expansion : List UtilityStmt) : HandlerResult :=
  if OidIsValid atstmt.relid then
    { trace := processStmtList alterStmtSubTrace
                 (alterExecutedStmts cat sentToRemote atstmt expansion)
      err := none }
  else
    { trace := [], err := none }

/-- Whether a sub-statement is a `CreateStmt` (the kind whose loop body
performs the extra `CommandCounterIncrement` before toast-table creation). -/
def isCreateStmtNode : UtilityStmt → Bool
  | .CreateStmt _ _ => true
  | _ => false

/-- An event is compatible with the forwarded-recursion discipline: any
recursive `ProcessUtility` call it records passes
`PROCESS_UTILITY_SUBCOMMAND` and `sentToRemote = true`. -/
def eventRecursionForwarded : Event → Bool
  | .recurse .PROCESS_UTILITY_SUBCOMMAND true => true
  | .recurse _ _ => false
  | _ => true

/-- Every recursion event in the trace passes the subcommand context with
`sentToRemote = true`. -/
def allRecursionsForwarded (l : List Event) : Bool :=
  l.all eventRecursionForwarded

/-- C1: the remote dispatcher's short-circuits, in order: a node that is not
the master coordinator is a no-op; `EXEC_ON_NONE` is a no-op; an
already-forwarded statement is a no-op; otherwise zero data nodes fail with
`NoDataNodesConfigured`.  In particular, with zero data nodes the
`EXEC_ON_ALL_NODES` dispatch fails while the `EXEC_ON_NONE` dispatch is a
no-op performing no network I/O. -/
theorem remote_dispatch_short_circuit_order (cfg : ClusterConfig)
    (ctx : RemoteUtilityContext) :
    (cfg.isCoordMaster = false → ExecRemoteUtilityStmt cfg ctx = .noop)
    ∧ (ctx.exec_type = EXEC_ON_NONE → ExecRemoteUtilityStmt cfg ctx = .noop)
    ∧ (ctx.sentToRemote = true → ExecRemoteUtilityStmt cfg ctx = .noop)
    ∧ (cfg.isCoordMaster = true → ctx.exec_type ≠ EXEC_ON_NONE →
        ctx.sentToRemote = false → cfg.NumDataNodes = 0 →
        ExecRemoteUtilityStmt cfg ctx = .err .NoDataNodesConfigured)
    ∧ (cfg.NumDataNodes = 0 → cfg.isCoordMaster = true → ctx.sentToRemote = false →
        ctx.exec_type = EXEC_ON_ALL_NODES →
        ExecRemoteUtilityStmt cfg ctx = .err .NoDataNodesConfigured)
    ∧ (cfg.NumDataNodes = 0 → ctx.exec_type = EXEC_ON_NONE →
        ExecRemoteUtilityStmt cfg ctx = .noop ∧
        broadcastCount (ExecRemoteUtilityStmt cfg ctx) = 0) := by
  refine ⟨?_, ?_, ?_, ?_, ?_, ?_⟩ <;> intros <;>
    simp_all [ExecRemoteUtilityStmt, broadcastCount]

/-- Witness for C1: a master coordinator with zero data nodes fails an
`EXEC_ON_ALL_NODES` dispatch and no-ops an `EXEC_ON_NONE` dispatch. -/
theorem remote_dispatch_short_circuit_order_witness :
    ExecRemoteUtilityStmt { isCoordMaster := true, NumDataNodes := 0 }
      { sentToRemote := false, force_autocommit := false, is_temp := false,
        exec_type := EXEC_ON_ALL_NODES, query := "CREATE TABLE t (a int)" } =
      .err .NoDataNodesConfigured
    ∧ ExecRemoteUtilityStmt { isCoordMaster := true, NumDataNodes := 0 }
      { sentToRemote := false, force_autocommit := false, is_temp := false,
        exec_type := EXEC_ON_NONE, query := "CREATE TABLE t (a int)" } = .noop :=
  ⟨(remote_dispatch_short_circuit_order _ _).2.2.2.2.1 rfl rfl rfl rfl,
   ((remote_dispatch_short_circuit_order _ _).2.2.2.2.2 rfl rfl).1⟩

/-- Helper: the loop trace keeps the forwarded-recursion discipline whenever
every per-statement trace does. -/
theorem processStmtList_allRecursionsForwarded (f : UtilityStmt → List Event)
    (h : ∀ s, allRecursionsForwarded (f s) = true) :
    ∀ l : List UtilityStmt, allRecursionsForwarded (processStmtList f l) = true
  | [] => by simp [processStmtList, allRecursionsForwarded]
  | [s] => by simpa [processStmtList] using h s
  | s :: s2 :: rest => by
      have ih := processStmtList_allRecursionsForwarded f h (s2 :: rest)
      have hs := h s
      simp only [processStmtList, allRecursionsForwarded, List.all_append,
        List.all_cons, Bool.and_eq_true] at *
      exact ⟨hs, by simp [eventRecursionForwarded], ih⟩

/-- Helper: each per-statement trace of the `T_CreateStmt` loop keeps the
forwarded-recursion discipline. -/
theorem createStmtSubTrace_forwarded (s : UtilityStmt) :
    allRecursionsForwarded (createStmtSubTrace s) = true := by
  cases s <;> simp [createStmtSubTrace, allRecursionsForwarded, eventRecursionForwarded]

/-- Helper: each per-statement trace of the `T_AlterTableStmt` loop keeps the
forwarded-recursion discipline. -/
theorem alterStmtSubTrace_forwarded (s : UtilityStmt) :
    allRecursionsForwarded (alterStmtSubTrace s) = true := by
  cases s <;> simp [alterStmtSubTrace, allRecursionsForwarded, eventRecursionForwarded]

/-- Helper: a dispatch whose context is marked already-forwarded is always a
no-op, whatever the cluster state and the rest of the context. -/
theorem dispatch_forwarded_noop (cfg : ClusterConfig) (ctx : RemoteUtilityContext)
    (h : ctx.sentToRemote = true) : ExecRemoteUtilityStmt cfg ctx = .noop := by
  cases hcm : cfg.isCoordMaster <;> cases ht : ctx.exec_type <;>
    simp_all [ExecRemoteUtilityStmt]

/-- C3: the already-forwarded flag is sticky.  Any dispatch whose request is
marked `sentToRemote` is suppressed; the slow-path recursion for generated
sub-statements always passes the flag as `true`, so their dispatches are
suppressed too; and calling the dispatcher twice with the same request, the
second call marked forwarded, performs exactly one broadcast in total. -/
theorem already_forwarded_sticky (cfg : ClusterConfig) (ctx : RemoteUtilityContext)
    (hcm : cfg.isCoordMaster = true) (ht : ctx.exec_type ≠ EXEC_ON_NONE)
    (hf : ctx.sentToRemote = false) (hd : cfg.NumDataNodes ≠ 0) :
    broadcastCount (ExecRemoteUtilityStmt cfg ctx) +
      broadcastCount (ExecRemoteUtilityStmt cfg { ctx with sentToRemote := true }) = 1
    ∧ (∀ (cfg2 : ClusterConfig) (ctx2 : RemoteUtilityContext),
        ctx2.sentToRemote = true → ExecRemoteUtilityStmt cfg2 ctx2 = .noop)
    ∧ (∀ (cfg2 : ClusterConfig) (sr : Bool) (expansion : List UtilityStmt),
        allRecursionsForwarded (ProcessCreateStmtBranch cfg2 sr expansion).trace = true) := by
  refine ⟨?_, fun cfg2 ctx2 h2 => dispatch_forwarded_noop cfg2 ctx2 h2, ?_⟩
  · have h2 : ExecRemoteUtilityStmt cfg { ctx with sentToRemote := true } = .noop :=
      dispatch_forwarded_noop _ _ rfl
    cases hx : ctx.exec_type <;>
      simp_all [ExecRemoteUtilityStmt, broadcastCount]
  · intro cfg2 sr expansion
    unfold ProcessCreateStmtBranch
    cases hmx : (if cfg2.isCoordMaster then createStmtsMixedCheck expansion true false
                 else Except.ok false) with
    | error e => simp [allRecursionsForwarded]
    | ok it =>
        exact processStmtList_allRecursionsForwarded _ createStmtSubTrace_forwarded _

/-- Witness for C3: on a one-data-node master coordinator, a fresh dispatch
broadcasts once and the repeated, forwarded dispatch adds none. -/
theorem already_forwarded_sticky_witness :
    broadcastCount (ExecRemoteUtilityStmt { isCoordMaster := true, NumDataNodes := 1 }
      { sentToRemote := false, force_autocommit := false, is_temp := false,
        exec_type := EXEC_ON_ALL_NODES, query := "CREATE ROLE r1" }) +
    broadcastCount (ExecRemoteUtilityStmt { isCoordMaster := true, NumDataNodes := 1 }
      { sentToRemote := true, force_autocommit := false, is_temp := false,
        exec_type := EXEC_ON_ALL_NODES, query := "CREATE ROLE r1" }) = 1 :=
  (already_forwarded_sticky { isCoordMaster := true, NumDataNodes := 1 }
    { sentToRemote := false, force_autocommit := false, is_temp := false,
      exec_type := EXEC_ON_ALL_NODES, query := "CREATE ROLE r1" }
    rfl (by decide) rfl (by decide)).1

/-- C5: placement of an index object: `EXEC_ON_DATANODES` with the temp flag
set when the index is temporary (i.e. indexes a temporary relation);
otherwise `EXEC_ON_COORDS` when it sits on a materialized view, directly or
via the base relation of the index; otherwise `EXEC_ON_ALL_NODES`.  An index
on a materialized view therefore resolves to `(EXEC_ON_COORDS, false)`. -/
theorem resolve_placement_index_rules (cat : Catalog) (idx : Oid) :
    (cat.IsTempTable idx = true →
      ExecUtilityFindNodes cat .OBJECT_INDEX idx = (EXEC_ON_DATANODES, true))
    ∧ (cat.IsTempTable idx = false →
        (cat.get_rel_relkind idx = RELKIND_MATVIEW ∨
          (cat.get_rel_relkind idx = RELKIND_INDEX ∧
           cat.get_rel_relkind (cat.IndexGetRelation idx) = RELKIND_MATVIEW)) →
        ExecUtilityFindNodes cat .OBJECT_INDEX idx = (EXEC_ON_COORDS, false))
    ∧ (cat.IsTempTable idx = false →
        ¬ (cat.get_rel_relkind idx = RELKIND_MATVIEW ∨
           (cat.get_rel_relkind idx = RELKIND_INDEX ∧
            cat.get_rel_relkind (cat.IndexGetRelation idx) = RELKIND_MATVIEW)) →
        ExecUtilityFindNodes cat .OBJECT_INDEX idx = (EXEC_ON_ALL_NODES, false)) := by
  refine ⟨?_, ?_, ?_⟩ <;> intros <;> simp_all [ExecUtilityFindNodes]

/-- Witness for C5: index oid `5` on materialized view oid `7` resolves to
`(EXEC_ON_COORDS, false)`; the same catalog with the index temporary gives
`(EXEC_ON_DATANODES, true)`. -/
theorem resolve_placement_index_rules_witness :
    ExecUtilityFindNodes
      { IsTempTable := fun _ => false,
        get_rel_relkind := fun o => if o = 7 then RELKIND_MATVIEW else RELKIND_INDEX,
        IndexGetRelation := fun _ => 7 } .OBJECT_INDEX 5 = (EXEC_ON_COORDS, false)
    ∧ ExecUtilityFindNodes
      { IsTempTable := fun _ => true,
        get_rel_relkind := fun _ => RELKIND_INDEX,
        IndexGetRelation := fun _ => 7 } .OBJECT_INDEX 5 = (EXEC_ON_DATANODES, true) :=
  ⟨(resolve_placement_index_rules _ 5).2.1 rfl (by right; exact ⟨by decide, by decide⟩),
   (resolve_placement_index_rules _ 5).1 rfl⟩

/-- C6 counterexample: inside an active transaction block, the ADB build's
SAVEPOINT arm does not define the savepoint and does not succeed: it raises
the unconditional `"SAVEPOINT is not yet supported."` error (not
`NoActiveTransactionBlock`). -/
theorem savepoint_in_block_counterexample :
    (ProcessTransactionStmt
      { EndTransactionBlock := true, PrepareTransactionBlock := true,
        RecoveryInProgress := false, IsTransactionBlock := true }
      .TRANS_STMT_SAVEPOINT true true).err = some .SavepointNotSupported
    ∧ (ProcessTransactionStmt
      { EndTransactionBlock := true, PrepareTransactionBlock := true,
        RecoveryInProgress := false, IsTransactionBlock := true }
      .TRANS_STMT_SAVEPOINT true true).defineSavepointCalled = false
    ∧ some UtilityError.SavepointNotSupported ≠ some UtilityError.NoActiveTransactionBlock := by
  refine ⟨rfl, rfl, by decide⟩

/-- C6 amended: in the ADB build the SAVEPOINT arm fails unconditionally
with the statement-too-complex `"SAVEPOINT is not yet supported."` error,
before any transaction-block check, and never defines a savepoint. -/
theorem savepoint_always_unsupported (collab : XactCollab)
    (isTopLevel hasTag : Bool) :
    (ProcessTransactionStmt collab .TRANS_STMT_SAVEPOINT isTopLevel hasTag).err =
      some .SavepointNotSupported
    ∧ (ProcessTransactionStmt collab .TRANS_STMT_SAVEPOINT
        isTopLevel hasTag).defineSavepointCalled = false :=
  ⟨rfl, rfl⟩

/-- C7: a COMMIT that `EndTransactionBlock` reports as unsuccessful, and a
PREPARE TRANSACTION (outside recovery) that `PrepareTransactionBlock`
reports as unsuccessful, both set the completion tag to exactly "ROLLBACK"
and raise no error. -/
theorem commit_failure_downgrades_to_rollback (collab : XactCollab)
    (isTopLevel : Bool)
    (hc : collab.EndTransactionBlock = false)
    (hp : collab.PrepareTransactionBlock = false)
    (hr : collab.RecoveryInProgress = false) :
    ProcessTransactionStmt collab .TRANS_STMT_COMMIT isTopLevel true =
      { completionTag := some "ROLLBACK", err := none, defineSavepointCalled := false }
    ∧ ProcessTransactionStmt collab .TRANS_STMT_PREPARE isTopLevel true =
      { completionTag := some "ROLLBACK", err := none, defineSavepointCalled := false } := by
  constructor <;>
    simp [ProcessTransactionStmt, PreventCommandDuringRecovery, hc, hp, hr]

/-- Witness for C7: a concrete collaborator that reports both the commit and
the prepare as unsuccessful. -/
theorem commit_failure_downgrades_to_rollback_witness :
    ProcessTransactionStmt
      { EndTransactionBlock := false, PrepareTransactionBlock := false,
        RecoveryInProgress := false, IsTransactionBlock := true }
      .TRANS_STMT_COMMIT true true =
      { completionTag := some "ROLLBACK", err := none, defineSavepointCalled := false } :=
  (commit_failure_downgrades_to_rollback
    { EndTransactionBlock := false, PrepareTransactionBlock := false,
      RecoveryInProgress := false, IsTransactionBlock := true }
    true rfl rfl rfl).1

/-- C4: the change-notification batch is strictly paired.  Provided the
handler's own trace records no batch calls (handlers never call the
complete-query bracketing themselves), the orchestrator's trace has as many
`beginBatch` as `endBatch` events, opens at most one batch, opens none for a
subcommand invocation, and re-raises the handler's error unchanged while
still releasing the batch. -/
theorem change_notification_batch_balanced (context : ProcessUtilityContext)
    (beginOk : Bool) (handler : HandlerResult)
    (hb : handler.trace.count Event.beginBatch = 0)
    (he : handler.trace.count Event.endBatch = 0) :
    ((ProcessUtilitySlowSkeleton context beginOk handler).trace.count Event.beginBatch =
      (ProcessUtilitySlowSkeleton context beginOk handler).trace.count Event.endBatch)
    ∧ (ProcessUtilitySlowSkeleton context beginOk handler).trace.count Event.beginBatch ≤ 1
    ∧ (context = .PROCESS_UTILITY_SUBCOMMAND →
        (ProcessUtilitySlowSkeleton context beginOk handler).trace.count Event.beginBatch = 0)
    ∧ (ProcessUtilitySlowSkeleton context beginOk handler).err = handler.err := by
  rcases handler with ⟨tr, err⟩
  simp only at hb he
  cases err <;> cases context <;> cases beginOk <;>
    simp_all [ProcessUtilitySlowSkeleton, isCompleteQuery, ProcessUtilityContext.toNat,
      List.count_append, List.count_cons]

/-- Witness for C4: a handler that raises after some work still yields a
balanced single batch, and the error is re-raised. -/
theorem change_notification_batch_balanced_witness :
    ((ProcessUtilitySlowSkeleton .PROCESS_UTILITY_TOPLEVEL true
        { trace := [Event.defineRelation], err := some .UndefinedObject }).trace.count
      Event.beginBatch =
      (ProcessUtilitySlowSkeleton .PROCESS_UTILITY_TOPLEVEL true
        { trace := [Event.defineRelation], err := some .UndefinedObject }).trace.count
      Event.endBatch)
    ∧ (ProcessUtilitySlowSkeleton .PROCESS_UTILITY_TOPLEVEL true
        { trace := [Event.defineRelation], err := some .UndefinedObject }).err =
      some .UndefinedObject :=
  ⟨(change_notification_batch_balanced .PROCESS_UTILITY_TOPLEVEL true
      { trace := [Event.defineRelation], err := some .UndefinedObject }
      (by decide) (by decide)).1,
   (change_notification_batch_balanced .PROCESS_UTILITY_TOPLEVEL true
      { trace := [Event.defineRelation], err := some .UndefinedObject }
      (by decide) (by decide)).2.2.2⟩

/-- C10: every recursive `ProcessUtility` invocation recorded by the
`T_CreateStmt` and `T_AlterTableStmt` branches passes the subcommand
context with `sentToRemote = true`, whatever the incoming flag of the
parent statement; and any dispatch made under a `sentToRemote = true`
context is a no-op, so a generated sub-statement never initiates its own
remote dispatch. -/
theorem subcommand_recursion_always_forwarded (cfg : ClusterConfig) (cat : Catalog)
    (sentToRemote : Bool) (expansion alterExpansion : List UtilityStmt)
    (atstmt : AlterTableStmtRec) :
    allRecursionsForwarded (ProcessCreateStmtBranch cfg sentToRemote expansion).trace = true
    ∧ allRecursionsForwarded
        (ProcessAlterTableBranch cat sentToRemote atstmt alterExpansion).trace = true
    ∧ (∀ (cfg2 : ClusterConfig) (ctx2 : RemoteUtilityContext),
        ExecRemoteUtilityStmt cfg2 { ctx2 with sentToRemote := true } = .noop) := by
  refine ⟨?_, ?_, fun cfg2 ctx2 => dispatch_forwarded_noop cfg2 _ rfl⟩
  · unfold ProcessCreateStmtBranch
    cases hmx : (if cfg.isCoordMaster then createStmtsMixedCheck expansion true false
                 else Except.ok false) with
    | error e => simp [allRecursionsForwarded]
    | ok it =>
        exact processStmtList_allRecursionsForwarded _ createStmtSubTrace_forwarded _
  · unfold ProcessAlterTableBranch
    cases hv : OidIsValid atstmt.relid with
    | false => simp [hv, allRecursionsForwarded]
    | true =>
        simp only [hv, if_true]
        exact processStmtList_allRecursionsForwarded _ alterStmtSubTrace_forwarded _

/-- Helper: command-counter increments in a loop trace: one per gap between
consecutive sub-statements, plus whatever each sub-statement's own work
performs. -/
theorem processStmtList_count_cci (f : UtilityStmt → List Event) :
    ∀ l : List UtilityStmt,
      (processStmtList f l).count Event.cci =
        (l.map fun s => (f s).count Event.cci).sum + (l.length - 1)
  | [] => by simp [processStmtList]
  | [s] => by simp [processStmtList]
  | s :: s2 :: rest => by
      have ih := processStmtList_count_cci f (s2 :: rest)
      simp [processStmtList, List.count_append, List.count_cons] at *
      omega

/-- Helper: an event other than `cci` that no sub-statement's work emits
does not occur in the loop trace. -/
theorem processStmtList_count_other (f : UtilityStmt → List Event) (e : Event)
    (he : e ≠ Event.cci) (h : ∀ s, (f s).count e = 0) :
    ∀ l : List UtilityStmt, (processStmtList f l).count e = 0
  | [] => by simp [processStmtList]
  | [s] => by simpa [processStmtList] using h s
  | s :: s2 :: rest => by
      have ih := processStmtList_count_other f e he h (s2 :: rest)
      simp [processStmtList, List.count_append, List.count_cons, h s, ih, Ne.symm he]

/-- Helper: the per-sub-statement work of the `T_CreateStmt` loop performs
one command-counter increment exactly for `CreateStmt` nodes (the increment
before toast-table creation). -/
theorem createSubTrace_cci_sum :
    ∀ l : List UtilityStmt,
      (l.map fun s => (createStmtSubTrace s).count Event.cci).sum =
        l.countP isCreateStmtNode
  | [] => by simp
  | s :: rest => by
      have ih := createSubTrace_cci_sum rest
      have hs : (createStmtSubTrace s).count Event.cci =
          if isCreateStmtNode s then 1 else 0 := by
        cases s <;> simp [createStmtSubTrace, isCreateStmtNode]
      rw [List.map_cons, List.sum_cons, List.countP_cons, hs, ih]
      cases hns : isCreateStmtNode s <;> simp [hns, Nat.add_comm]

/-- Helper: the per-sub-statement work of the `T_CreateStmt` loop never
emits batch events. -/
theorem createStmtSubTrace_no_batch (s : UtilityStmt) :
    (createStmtSubTrace s).count Event.beginBatch = 0 ∧
    (createStmtSubTrace s).count Event.endBatch = 0 := by
  cases s <;> simp [createStmtSubTrace]

/-- C8 counterexample: a CREATE TABLE whose parse-analysis expansion is a
single (already forwarded) `CreateStmt` performs 1 command-counter advance,
not `N - 1 = 0`: the loop body itself advances the counter between table
creation and toast-table creation. -/
theorem create_table_cci_counterexample :
    (ProcessUtilitySlowSkeleton .PROCESS_UTILITY_TOPLEVEL true
      (ProcessCreateStmtBranch { isCoordMaster := false, NumDataNodes := 1 } true
        [UtilityStmt.CreateStmt false false])).trace.count Event.cci = 1
    ∧ ([UtilityStmt.CreateStmt false false] : List UtilityStmt).length - 1 = 0 := by
  decide

/-- C8 amended: executing a CREATE TABLE runs the executed sub-statement
list (the expansion, plus the injected `RemoteQuery` node when not forwarded
and not temporary) with one command-counter advance between consecutive
sub-statements plus one extra advance per `CreateStmt` sub-statement (the
increment before toast-table creation); the change-notification batch
remains exactly one balanced begin/end pair for a complete-query
invocation. -/
theorem create_table_cci_count_amended (cfg : ClusterConfig)
    (context : ProcessUtilityContext) (beginOk sentToRemote : Bool)
    (expansion : List UtilityStmt)
    (herr : (ProcessCreateStmtBranch cfg sentToRemote expansion).err = none) :
    (ProcessUtilitySlowSkeleton context beginOk
        (ProcessCreateStmtBranch cfg sentToRemote expansion)).trace.count Event.cci =
      ((createExecutedStmts cfg sentToRemote expansion).length - 1) +
        (createExecutedStmts cfg sentToRemote expansion).countP isCreateStmtNode
    ∧ (isCompleteQuery context = true → beginOk = true →
        (ProcessUtilitySlowSkeleton context beginOk
          (ProcessCreateStmtBranch cfg sentToRemote expansion)).trace.count
            Event.beginBatch = 1
        ∧ (ProcessUtilitySlowSkeleton context beginOk
            (ProcessCreateStmtBranch cfg sentToRemote expansion)).trace.count
              Event.endBatch = 1) := by
  have hbranch : ProcessCreateStmtBranch cfg sentToRemote expansion =
      { trace := processStmtList createStmtSubTrace
          (createExecutedStmts cfg sentToRemote expansion), err := none } := by
    unfold ProcessCreateStmtBranch at herr ⊢
    cases hmx : (if cfg.isCoordMaster then createStmtsMixedCheck expansion true false
                 else Except.ok false) with
    | error e => rw [hmx] at herr; simp at herr
    | ok it => rfl
  rw [hbranch]
  have hcci := processStmtList_count_cci createStmtSubTrace
    (createExecutedStmts cfg sentToRemote expansion)
  have hsum := createSubTrace_cci_sum (createExecutedStmts cfg sentToRemote expansion)
  have hbb := processStmtList_count_other createStmtSubTrace Event.beginBatch
    (by decide) (fun s => (createStmtSubTrace_no_batch s).1)
    (createExecutedStmts cfg sentToRemote expansion)
  have heb := processStmtList_count_other createStmtSubTrace Event.endBatch
    (by decide) (fun s => (createStmtSubTrace_no_batch s).2)
    (createExecutedStmts cfg sentToRemote expansion)
  constructor
  · cases hq : isCompleteQuery context <;> cases beginOk <;>
      simp_all [ProcessUtilitySlowSkeleton, List.count_append, List.count_cons] <;>
      omega
  · intro hq hbk
    subst hbk
    simp_all [ProcessUtilitySlowSkeleton, List.count_append, List.count_cons]

/-- Witness for C8 amended: a forwarded two-element expansion
(`CreateStmt` then an index sub-statement) performs `1 + 1 = 2` advances
and one balanced batch pair. -/
theorem create_table_cci_count_amended_witness :
    (ProcessUtilitySlowSkeleton .PROCESS_UTILITY_TOPLEVEL true
      (ProcessCreateStmtBranch { isCoordMaster := true, NumDataNodes := 1 } true
        [UtilityStmt.CreateStmt false false, UtilityStmt.IndexStmt])).trace.count
      Event.cci =
      (([UtilityStmt.CreateStmt false false, UtilityStmt.IndexStmt] : List UtilityStmt).length - 1) +
        ([UtilityStmt.CreateStmt false false, UtilityStmt.IndexStmt] : List UtilityStmt).countP
          isCreateStmtNode
    ∧ (ProcessUtilitySlowSkeleton .PROCESS_UTILITY_TOPLEVEL true
        (ProcessCreateStmtBranch { isCoordMaster := true, NumDataNodes := 1 } true
          [UtilityStmt.CreateStmt false false, UtilityStmt.IndexStmt])).trace.count
        Event.beginBatch = 1 := by
  have h := create_table_cci_count_amended { isCoordMaster := true, NumDataNodes := 1 }
    .PROCESS_UTILITY_TOPLEVEL true true
    [UtilityStmt.CreateStmt false false, UtilityStmt.IndexStmt] (by decide)
  exact ⟨by rw [h.1]; decide, (h.2 (by decide) rfl).1⟩

/-- Helper: scanning from the non-first state with every oid valid, a
successful scan forces every scanned object's decision to coincide with the
running decision. -/
theorem dropObjectsCheck_ok_all_eq (cat : Catalog) (k : ObjectType) (mok : Bool) :
    ∀ (l : List Oid) (rt : RemoteQueryExecType) (rb : Bool)
      (res : RemoteQueryExecType × Bool),
      (∀ o ∈ l, OidIsValid o = true) →
      dropObjectsCheck cat k mok l false rt rb = .ok res →
      ∀ o ∈ l, ExecUtilityFindNodes cat k o = (rt, rb)
  | [], _, _, _, _, _ => by simp
  | o :: rest, rt, rb, res, hv, hok => by
      have hvo : OidIsValid o = true := hv o (by simp)
      rw [dropObjectsCheck] at hok
      simp only [hvo, Bool.not_true, Bool.false_and, Bool.false_eq_true, if_false,
        if_true] at hok
      by_cases hif : (ExecUtilityFindNodes cat k o).1 ≠ rt ∨
          (ExecUtilityFindNodes cat k o).2 ≠ rb
      · rw [if_pos hif] at hok
        exact absurd hok (by simp)
      · rw [if_neg hif] at hok
        push_neg at hif
        intro x hx
        rcases List.mem_cons.mp hx with hx | hx
        · rw [hx]
          exact Prod.ext hif.1 hif.2
        · exact dropObjectsCheck_ok_all_eq cat k mok rest rt rb res
            (fun y hy => hv y (List.mem_cons_of_mem _ hy)) hok x hx

/-- Helper: with every oid valid, a failing scan from the non-first state
fails with the mixed-placement error. -/
theorem dropObjectsCheck_error_mixed (cat : Catalog) (k : ObjectType) (mok : Bool) :
    ∀ (l : List Oid) (rt : RemoteQueryExecType) (rb : Bool) (e : UtilityError),
      (∀ o ∈ l, OidIsValid o = true) →
      dropObjectsCheck cat k mok l false rt rb = .error e →
      e = .MixedPlacementError
  | [], _, _, _, _, h => by simp [dropObjectsCheck] at h
  | o :: rest, rt, rb, e, hv, herr => by
      have hvo : OidIsValid o = true := hv o (by simp)
      rw [dropObjectsCheck] at herr
      simp only [hvo, Bool.not_true, Bool.false_and, Bool.false_eq_true, if_false,
        if_true] at herr
      by_cases hif : (ExecUtilityFindNodes cat k o).1 ≠ rt ∨
          (ExecUtilityFindNodes cat k o).2 ≠ rb
      · rw [if_pos hif] at herr
        injection herr with h
        exact h.symm
      · rw [if_neg hif] at herr
        exact dropObjectsCheck_error_mixed cat k mok rest rt rb e
          (fun y hy => hv y (List.mem_cons_of_mem _ hy)) herr

/-- Helper: two valid objects with differing placement decisions make the
scan fail with the mixed-placement error. -/
theorem dropObjectsCheck_mixed (cat : Catalog) (k : ObjectType) (mok : Bool)
    (l : List Oid) (hv : ∀ o ∈ l, OidIsValid o = true) (a b : Oid)
    (ha : a ∈ l) (hb : b ∈ l)
    (hab : ExecUtilityFindNodes cat k a ≠ ExecUtilityFindNodes cat k b) :
    dropObjectsCheck cat k mok l true EXEC_ON_ALL_NODES false =
      .error .MixedPlacementError := by
  rcases l with _ | ⟨o, rest⟩
  · simp at ha
  have hvo : OidIsValid o = true := hv o (by simp)
  rw [dropObjectsCheck]
  simp only [hvo, Bool.not_true, Bool.false_and, Bool.false_eq_true, if_false,
    if_true]
  rcases hres : dropObjectsCheck cat k mok rest false
      (ExecUtilityFindNodes cat k o).1 (ExecUtilityFindNodes cat k o).2 with e | res
  · have he : e = .MixedPlacementError :=
      dropObjectsCheck_error_mixed cat k mok rest _ _ e
        (fun y hy => hv y (List.mem_cons_of_mem _ hy)) hres
    rw [he]
  · exfalso
    have hall := dropObjectsCheck_ok_all_eq cat k mok rest _ _ res
      (fun y hy => hv y (List.mem_cons_of_mem _ hy)) hres
    have hfind : ∀ x ∈ o :: rest,
        ExecUtilityFindNodes cat k x = ExecUtilityFindNodes cat k o := by
      intro x hx
      rcases List.mem_cons.mp hx with hx | hx
      · rw [hx]
      · rw [hall x hx]
    exact hab (by rw [hfind a ha, hfind b hb])

/-- C2: a multi-object DROP of tables, sequences, views or indexes whose
named objects all exist but resolve to differing `(placement, isTemporary)`
decisions fails with the mixed-placement error, with nothing dropped and
no remote dispatch. -/
theorem drop_mixed_placement_fails_before_drop (cfg : ClusterConfig)
    (cat : Catalog) (stmt : DropStmt) (q : String) (sr : Bool)
    (hcm : cfg.isCoordMaster = true)
    (hkind : stmt.removeType = .OBJECT_TABLE ∨ stmt.removeType = .OBJECT_SEQUENCE ∨
             stmt.removeType = .OBJECT_VIEW ∨ stmt.removeType = .OBJECT_INDEX)
    (hconc : stmt.concurrent = false)
    (hv : ∀ o ∈ stmt.objects, OidIsValid o = true)
    (a b : Oid) (ha : a ∈ stmt.objects) (hb : b ∈ stmt.objects)
    (hab : ExecUtilityFindNodes cat stmt.removeType a ≠
           ExecUtilityFindNodes cat stmt.removeType b) :
    ExecDropStmt cfg cat stmt q sr =
      { dropped := [], dispatch := .noop, preErr := some .MixedPlacementError } := by
  have hm := dropObjectsCheck_mixed cat stmt.removeType stmt.missing_ok
    stmt.objects hv a b ha hb hab
  have hpre : ∀ (et : RemoteQueryExecType) (it : Bool),
      DropStmtPreTreatment cfg cat stmt et it = .error .MixedPlacementError := by
    intro et it
    unfold DropStmtPreTreatment
    rcases hkind with h | h | h | h <;> rw [h] at hm <;> simp [hcm, h, hm]
  unfold ExecDropStmt
  have hcc : (decide (stmt.removeType = .OBJECT_INDEX) && stmt.concurrent) = false := by
    simp [hconc]
  simp [hcc, hpre]

/-- Witness for C2: dropping a temporary and a permanent table in one DROP
fails with the mixed-placement error and drops nothing. -/
theorem drop_mixed_placement_fails_before_drop_witness :
    ExecDropStmt { isCoordMaster := true, NumDataNodes := 1 }
      { IsTempTable := fun o => o == 1, get_rel_relkind := fun _ => RELKIND_RELATION,
        IndexGetRelation := fun _ => 0 }
      { removeType := .OBJECT_TABLE, objects := [1, 2], missing_ok := false,
        concurrent := false } "DROP TABLE t1, t2" false =
      { dropped := [], dispatch := .noop, preErr := some .MixedPlacementError } :=
  drop_mixed_placement_fails_before_drop _ _ _ _ _ rfl (Or.inl rfl) rfl
    (by decide) 1 2 (by decide) (by decide) (by decide)

/-- Helper: when the statement tolerates missing objects and every oid is
invalid, the scan skips everything and returns its incoming state
unchanged. -/
theorem dropObjectsCheck_all_skipped (cat : Catalog) (k : ObjectType) :
    ∀ (l : List Oid) (isf : Bool) (rt : RemoteQueryExecType) (rb : Bool),
      (∀ o ∈ l, OidIsValid o = false) →
      dropObjectsCheck cat k true l isf rt rb = .ok (rt, rb)
  | [], _, _, _, _ => by simp [dropObjectsCheck]
  | o :: rest, isf, rt, rb, hinv => by
      have hvo : OidIsValid o = false := hinv o (by simp)
      rw [dropObjectsCheck]
      simp only [hvo, Bool.not_false, Bool.not_true, Bool.and_false, Bool.and_true,
        Bool.false_eq_true, if_false, if_true]
      exact dropObjectsCheck_all_skipped cat k rest isf rt rb
        (fun y hy => hinv y (List.mem_cons_of_mem _ hy))

/-- C9 counterexample: `DROP TABLE IF EXISTS` naming one nonexistent table,
on a master coordinator with one data node: every sub-object is skipped,
yet the resulting placement is `EXEC_ON_ALL_NODES` (not `EXEC_ON_NONE`) and
a remote broadcast is performed. -/
theorem drop_all_skipped_dispatches_counterexample :
    (ExecDropStmt { isCoordMaster := true, NumDataNodes := 1 }
      { IsTempTable := fun _ => false, get_rel_relkind := fun _ => RELKIND_RELATION,
        IndexGetRelation := fun _ => 0 }
      { removeType := .OBJECT_TABLE, objects := [0], missing_ok := true,
        concurrent := false } "DROP TABLE IF EXISTS missing_tbl" false).dispatch =
      .broadcast { sql_statement := "DROP TABLE IF EXISTS missing_tbl",
                   force_autocommit := false, exec_type := EXEC_ON_ALL_NODES,
                   is_temp := false }
    ∧ EXEC_ON_ALL_NODES ≠ EXEC_ON_NONE := by
  constructor
  · rfl
  · decide

/-- C9 amended: if every sub-object of a tolerant multi-object DROP is
skipped, the checker returns the scan's initial decision
`(EXEC_ON_ALL_NODES, isTemporary = false)` — not `EXEC_ON_NONE` — so nothing
is dropped locally, and on a master coordinator with at least one data node
a not-already-forwarded statement is still dispatched remotely. -/
theorem drop_all_skipped_keeps_all_nodes (cfg : ClusterConfig) (cat : Catalog)
    (stmt : DropStmt) (q : String)
    (hcm : cfg.isCoordMaster = true)
    (hkind : stmt.removeType = .OBJECT_TABLE ∨ stmt.removeType = .OBJECT_SEQUENCE ∨
             stmt.removeType = .OBJECT_VIEW ∨ stmt.removeType = .OBJECT_INDEX)
    (hconc : stmt.concurrent = false)
    (hmok : stmt.missing_ok = true)
    (hinv : ∀ o ∈ stmt.objects, OidIsValid o = false) :
    (∀ (et : RemoteQueryExecType) (it : Bool),
      DropStmtPreTreatment cfg cat stmt et it = .ok (EXEC_ON_ALL_NODES, false))
    ∧ (ExecDropStmt cfg cat stmt q false).dropped = []
    ∧ (cfg.NumDataNodes ≠ 0 →
        (ExecDropStmt cfg cat stmt q false).dispatch =
          .broadcast { sql_statement := q, force_autocommit := false,
                       exec_type := EXEC_ON_ALL_NODES, is_temp := false }) := by
  have hpre : ∀ (et : RemoteQueryExecType) (it : Bool),
      DropStmtPreTreatment cfg cat stmt et it = .ok (EXEC_ON_ALL_NODES, false) := by
    intro et it
    have hscan := dropObjectsCheck_all_skipped cat stmt.removeType stmt.objects
      true EXEC_ON_ALL_NODES false hinv
    unfold DropStmtPreTreatment
    rcases hkind with h | h | h | h <;> rw [h] at hscan <;>
      simp [hcm, h, hmok, hscan]
  have hcc : (decide (stmt.removeType = .OBJECT_INDEX) && stmt.concurrent) = false := by
    simp [hconc]
  have hdropped : RemoveRelations stmt = [] := by
    unfold RemoveRelations
    refine List.filter_eq_nil_iff.mpr ?_
    intro o ho
    simp [hinv o ho]
  refine ⟨hpre, ?_, ?_⟩
  · unfold ExecDropStmt
    simp [hcc, hpre, hdropped]
  · intro hd
    unfold ExecDropStmt
    simp only [hcc, Bool.false_eq_true, if_false, hpre, Bool.not_false, if_true]
    simp [ExecRemoteUtilityStmt, hcm, hd, hdropped]

/-- Witness for C9 amended: the all-skipped tolerant DROP on a one-data-node
master coordinator drops nothing yet broadcasts to all nodes. -/
theorem drop_all_skipped_keeps_all_nodes_witness :
    (ExecDropStmt { isCoordMaster := true, NumDataNodes := 1 }
      { IsTempTable := fun _ => false, get_rel_relkind := fun _ => RELKIND_RELATION,
        IndexGetRelation := fun _ => 0 }
      { removeType := .OBJECT_SEQUENCE, objects := [0, 0], missing_ok := true,
        concurrent := false } "DROP SEQUENCE IF EXISTS s1, s2" false).dropped = []
    ∧ (ExecDropStmt { isCoordMaster := true, NumDataNodes := 1 }
      { IsTempTable := fun _ => false, get_rel_relkind := fun _ => RELKIND_RELATION,
        IndexGetRelation := fun _ => 0 }
      { removeType := .OBJECT_SEQUENCE, objects := [0, 0], missing_ok := true,
        concurrent := false } "DROP SEQUENCE IF EXISTS s1, s2" false).dispatch =
      .broadcast { sql_statement := "DROP SEQUENCE IF EXISTS s1, s2",
                   force_autocommit := false, exec_type := EXEC_ON_ALL_NODES,
                   is_temp := false } :=
  ⟨(drop_all_skipped_keeps_all_nodes _ _ _ _ rfl (Or.inr (Or.inl rfl)) rfl rfl
      (by decide)).2.1,
   (drop_all_skipped_keeps_all_nodes _ _ _ _ rfl (Or.inr (Or.inl rfl)) rfl rfl
      (by decide)).2.2 (by decide)⟩
